import Mathlib

/-!
Verification of the configuration-resolution core of the repository
(builder/amazon common run/block-device configuration, the cloudstack and
virtualbox/ovf builders' NewConfig, and the vmware common shutdown
configuration), shallowly embedded in Lean.

Conventions of the embedding:
* Go strings become `String`, `int64` becomes `Int`, `time.Duration`
  becomes `Int` (nanoseconds), Go pointers (`*bool`, aws `*string`,
  `*int64`) become `Option _`, Go `nil` maps/slices are `Option _` where
  the code distinguishes nil from empty, plain `List _` otherwise.
* Go `error` values produced by the validation rules become constructors
  of an inductive error type; `Err.render` reproduces the exact message
  text of each `fmt.Errorf` call site.
* External collaborators that are out of scope for the source under
  `src/` (the communicator's `Prepare`, `os.Stat`, `net.ParseCIDR`,
  `time.ParseDuration`, `uuid.TimeOrderedUUID`) are passed in as explicit
  function parameters, mirroring the spec's collaborator contracts.
-/

/-! ## Block devices (builder/amazon/common/block_device.go) -/

/-- `BlockDevice` from the amazon common block-device file; field for
field the Go struct, with `Encrypted *bool` as `Option Bool`. -/
structure BlockDevice where
  DeleteOnTermination : Bool := false
  DeviceName : String := ""
  Encrypted : Option Bool := none
  IOPS : Int := 0
  NoDevice : Bool := false
  SnapshotId : String := ""
  VirtualName : String := ""
  VolumeType : String := ""
  VolumeSize : Int := 0
  KmsKeyId : String := ""
  OmitFromArtifact : Bool := false
deriving DecidableEq, Repr

/-- `ec2.EbsBlockDevice`: every field is an aws pointer, hence `Option`. -/
structure EbsBlockDevice where
  DeleteOnTermination : Option Bool := none
  VolumeType : Option String := none
  VolumeSize : Option Int := none
  Iops : Option Int := none
  SnapshotId : Option String := none
  Encrypted : Option Bool := none
  KmsKeyId : Option String := none
deriving DecidableEq, Repr

/-- `ec2.BlockDeviceMapping`: `DeviceName` is always set by the builder
(`aws.String(blockDevice.DeviceName)`), the other three are pointers. -/
structure BlockDeviceMapping where
  DeviceName : String
  NoDevice : Option String := none
  VirtualName : Option String := none
  Ebs : Option EbsBlockDevice := none
deriving DecidableEq, Repr

/-- The body of the loop of `buildBlockDevices`: builds one
`ec2.BlockDeviceMapping` from one `BlockDevice`, following the Go
branching (`NoDevice`, then `VirtualName != ""` with the `ephemeral`
prefix test, else the EBS branch). -/
def mkMapping (bd : BlockDevice) : BlockDeviceMapping :=
  let base : BlockDeviceMapping := { DeviceName := bd.DeviceName }
  if bd.NoDevice then
    { base with NoDevice := some "" }
  else if bd.VirtualName ≠ "" then
    if "ephemeral".isPrefixOf bd.VirtualName then
      { base with VirtualName := some bd.VirtualName }
    else
      base
  else
    { base with
      Ebs := some
        { DeleteOnTermination := some bd.DeleteOnTermination
          VolumeType := if bd.VolumeType ≠ "" then some bd.VolumeType else none
          VolumeSize := if bd.VolumeSize > 0 then some bd.VolumeSize else none
          Iops := if bd.VolumeType = "io1" then some bd.IOPS else none
          SnapshotId := if bd.SnapshotId ≠ "" then some bd.SnapshotId else none
          Encrypted := bd.Encrypted
          KmsKeyId := if bd.KmsKeyId ≠ "" then some bd.KmsKeyId else none } }

/-- `buildBlockDevices`: the Go loop appends one mapping per input
device, in order — a `List.map` of the loop body. -/
def buildBlockDevices (b : List BlockDevice) : List BlockDeviceMapping :=
  b.map mkMapping

/-- The two errors `(*BlockDevice).Prepare` can produce. -/
inductive BdErr where
  | deviceNameRequired
  | kmsNeedsEncrypted (device : String)
deriving DecidableEq, Repr

/-- Exact message text of the corresponding `fmt.Errorf` calls. -/
def BdErr.render : BdErr → String
  | .deviceNameRequired =>
      "The `device_name` must be specified for every device in the block device mapping."
  | .kmsNeedsEncrypted device =>
      "The device " ++ device ++ ", must also have `encrypted: true` when setting a kms_key_id."

/-- `(*BlockDevice).Prepare`: returns a single `error` (or nil); the Go
function returns at the first violated rule. -/
def BlockDevice.Prepare (b : BlockDevice) : Option BdErr :=
  if b.DeviceName = "" then
    some .deviceNameRequired
  else if b.KmsKeyId ≠ "" ∧ b.Encrypted = some false then
    some (.kmsNeedsEncrypted b.DeviceName)
  else
    none

/-- `AMIBlockDevices` (the `ami_block_device_mappings` wrapper). -/
structure AMIBlockDevices where
  AMIMappings : List BlockDevice := []
deriving DecidableEq, Repr

/-- `LaunchBlockDevices` (the `launch_block_device_mappings` wrapper). -/
structure LaunchBlockDevices where
  LaunchMappings : List BlockDevice := []
deriving DecidableEq, Repr

/-- `BlockDevices` embeds (squashes) both wrappers. -/
structure BlockDevices where
  toAMIBlockDevices : AMIBlockDevices := {}
  toLaunchBlockDevices : LaunchBlockDevices := {}
deriving DecidableEq, Repr

/-- Promoted field of the embedded `AMIBlockDevices`. -/
def BlockDevices.AMIMappings (b : BlockDevices) : List BlockDevice :=
  b.toAMIBlockDevices.AMIMappings

/-- Promoted field of the embedded `LaunchBlockDevices`. -/
def BlockDevices.LaunchMappings (b : BlockDevices) : List BlockDevice :=
  b.toLaunchBlockDevices.LaunchMappings

/-- `(*BlockDevices).Prepare`: one wrapped message per failing device,
AMI mappings first, then launch mappings, exactly as the two Go loops. -/
def BlockDevices.Prepare (b : BlockDevices) : List String :=
  (b.AMIMappings.filterMap fun d =>
      (d.Prepare).map fun e => "AMIMapping: " ++ e.render)
    ++ (b.LaunchMappings.filterMap fun d =>
      (d.Prepare).map fun e => "LaunchMapping: " ++ e.render)

/-- `(*AMIBlockDevices).BuildAMIDevices`. -/
def AMIBlockDevices.BuildAMIDevices (b : AMIBlockDevices) : List BlockDeviceMapping :=
  buildBlockDevices b.AMIMappings

/-- `(*LaunchBlockDevices).BuildLaunchDevices`. -/
def LaunchBlockDevices.BuildLaunchDevices (b : LaunchBlockDevices) : List BlockDeviceMapping :=
  buildBlockDevices b.LaunchMappings

/-- Number of device kinds set on a mapping: suppressed (`NoDevice`),
ephemeral (`VirtualName`), persistent (`Ebs`). -/
def kindCount (m : BlockDeviceMapping) : Nat :=
  (if m.NoDevice.isSome then 1 else 0)
    + (if m.VirtualName.isSome then 1 else 0)
    + (if m.Ebs.isSome then 1 else 0)

/-! ## Run configuration (builder/amazon/common/run_config.go) -/

/-- `communicator.Config`, the communicator sub-configuration: the fields
that `RunConfig.Prepare` reads; the communicator itself is an
out-of-scope collaborator.  The Go field `Type` is written `«Type»`
because `Type` is reserved in Lean. -/
structure CommunicatorConfig where
  SSHKeyPairName : String := ""
  SSHTemporaryKeyPairName : String := ""
  SSHPrivateKeyFile : String := ""
  SSHPassword : String := ""
  SSHInterface : String := ""
  «Type» : String := ""
  WinRMPassword : String := ""
  SSHAgentAuth : Bool := false
deriving DecidableEq, Repr

/-- `AmiFilterOptions` (`Filters map[*string]*string`, `Owners`,
`most_recent`); only the lengths of the collections are consulted. -/
structure AmiFilterOptions where
  Filters : List (String × String) := []
  Owners : List String := []
  MostRecent : Bool := false
deriving DecidableEq, Repr

/-- `(*AmiFilterOptions).Empty`. -/
def AmiFilterOptions.Empty (d : AmiFilterOptions) : Bool :=
  d.Owners.length = 0 && d.Filters.length = 0

/-- `(*AmiFilterOptions).NoOwner`. -/
def AmiFilterOptions.NoOwner (d : AmiFilterOptions) : Bool :=
  d.Owners.length = 0

/-- `SubnetFilterOptions`. -/
structure SubnetFilterOptions where
  Filters : List (String × String) := []
  MostFree : Bool := false
  Random : Bool := false
deriving DecidableEq, Repr

/-- `VpcFilterOptions`. -/
structure VpcFilterOptions where
  Filters : List (String × String) := []
deriving DecidableEq, Repr

/-- `SecurityGroupFilterOptions`. -/
structure SecurityGroupFilterOptions where
  Filters : List (String × String) := []
deriving DecidableEq, Repr

/-- One nanosecond-count minute, `time.Minute`. -/
def timeMinute : Int := 60000000000

/-- `RunConfig`; `RunTags` and `SpotTags` are `Option` because the Go
code distinguishes a nil map from an empty one. -/
structure RunConfig where
  AssociatePublicIpAddress : Bool := false
  AvailabilityZone : String := ""
  BlockDurationMinutes : Int := 0
  DisableStopInstance : Bool := false
  EbsOptimized : Bool := false
  EnableT2Unlimited : Bool := false
  IamInstanceProfile : String := ""
  InstanceInitiatedShutdownBehavior : String := ""
  InstanceType : String := ""
  SecurityGroupFilter : SecurityGroupFilterOptions := {}
  RunTags : Option (List (String × String)) := none
  SecurityGroupId : String := ""
  SecurityGroupIds : List String := []
  SourceAmi : String := ""
  SourceAmiFilter : AmiFilterOptions := {}
  SpotInstanceTypes : List String := []
  SpotPrice : String := ""
  SpotPriceAutoProduct : String := ""
  SpotTags : Option (List (String × String)) := none
  SubnetFilter : SubnetFilterOptions := {}
  SubnetId : String := ""
  TemporaryKeyPairName : String := ""
  TemporarySGSourceCidrs : List String := []
  UserData : String := ""
  UserDataFile : String := ""
  VpcFilter : VpcFilterOptions := {}
  VpcId : String := ""
  WindowsPasswordTimeout : Int := 0
  Comm : CommunicatorConfig := {}
deriving DecidableEq, Repr

/-- The validation errors `(*RunConfig).Prepare` can append; each
constructor corresponds to one `fmt.Errorf` call site, and `subConfig`
stands for an error coming out of the communicator collaborator. -/
inductive Err where
  | unknownInterface (s : String)
  | winrmPrivateKey
  | keypairPrivateKey
  | sourceAmiMustBeSpecified
  | sourceAmiFilterOwner
  | instanceTypeRequired
  | instanceTypeBoth
  | bdmMultiple60
  | spotPriceAutoProduct
  | spotPriceShouldBeAuto
  | spotTagsNoSpot
  | userDataOnlyOne
  | userDataFileNotFound (f : String)
  | securityGroupOnlyOne
  | cidrParse (s : String)
  | shutdownBehaviorInvalid
  | t2Spot
  | t2NoDot (it : String)
  | t2NonT2 (it : String)
  | subConfig (s : String)
deriving DecidableEq, Repr

/-- Exact message text of each `fmt.Errorf` call in
`(*RunConfig).Prepare` (for `cidrParse` the wrapped text is the
`net.ParseCIDR` error string for the offending literal). -/
def Err.render : Err → String
  | .unknownInterface s => "Unknown interface type: " ++ s
  | .winrmPrivateKey =>
      "ssh_private_key_file must be provided to retrieve the winrm password when using ssh_keypair_name."
  | .keypairPrivateKey =>
      "ssh_private_key_file must be provided or ssh_agent_auth enabled when ssh_keypair_name is specified."
  | .sourceAmiMustBeSpecified => "A source_ami or source_ami_filter must be specified"
  | .sourceAmiFilterOwner =>
      "For security reasons, your source AMI filter must declare an owner."
  | .instanceTypeRequired => "either instance_type or spot_instance_types must be specified"
  | .instanceTypeBoth => "either instance_type or spot_instance_types must be specified, not both"
  | .bdmMultiple60 => "block_duration_minutes must be multiple of 60"
  | .spotPriceAutoProduct => "spot_price_auto_product must be specified when spot_price is auto"
  | .spotPriceShouldBeAuto =>
      "spot_price should be set to auto when spot_price_auto_product is specified"
  | .spotTagsNoSpot => "spot_tags should not be set when not requesting a spot instance"
  | .userDataOnlyOne => "Only one of user_data or user_data_file can be specified."
  | .userDataFileNotFound f => "user_data_file not found: " ++ f
  | .securityGroupOnlyOne => "Only one of security_group_id or security_group_ids can be specified."
  | .cidrParse s =>
      "Error parsing CIDR in temporary_security_group_source_cidrs: invalid CIDR address: " ++ s
  | .shutdownBehaviorInvalid => "shutdown_behavior only accepts 'stop' or 'terminate' values."
  | .t2Spot => "Error: T2 Unlimited cannot be used in conjuction with Spot Instances"
  | .t2NoDot it => "Error determining main Instance Type from: " ++ it
  | .t2NonT2 it => "Error: T2 Unlimited enabled with a non-T2 Instance Type: " ++ it
  | .subConfig s => s

/-- The condition guarding the temporary-key-pair default at the top of
`(*RunConfig).Prepare`. -/
def needsTempKeyPair (comm : CommunicatorConfig) : Prop :=
  comm.SSHKeyPairName = "" ∧ comm.SSHTemporaryKeyPairName = ""
    ∧ comm.SSHPrivateKeyFile = "" ∧ comm.SSHPassword = ""

instance (comm : CommunicatorConfig) : Decidable (needsTempKeyPair comm) := by
  unfold needsTempKeyPair; infer_instance

/-- The `ssh_interface` check. -/
def chkInterface (comm : CommunicatorConfig) : List Err :=
  if comm.SSHInterface ≠ "public_ip" ∧ comm.SSHInterface ≠ "private_ip"
      ∧ comm.SSHInterface ≠ "public_dns" ∧ comm.SSHInterface ≠ "private_dns"
      ∧ comm.SSHInterface ≠ "" then
    [.unknownInterface comm.SSHInterface]
  else []

/-- The `ssh_keypair_name` checks (nested if/else-if as in the Go). -/
def chkKeyPair (comm : CommunicatorConfig) : List Err :=
  if comm.SSHKeyPairName ≠ "" then
    if comm.«Type» = "winrm" ∧ comm.WinRMPassword = "" ∧ comm.SSHPrivateKeyFile = "" then
      [.winrmPrivateKey]
    else if comm.SSHPrivateKeyFile = "" ∧ comm.SSHAgentAuth = false then
      [.keypairPrivateKey]
    else []
  else []

/-- The `source_ami`/`source_ami_filter` presence check. -/
def chkSourceAmi (ami : String) (filt : AmiFilterOptions) : List Err :=
  if ami = "" ∧ filt.Empty = true then [.sourceAmiMustBeSpecified] else []

/-- The source-AMI-filter owner check. -/
def chkSourceAmiOwner (ami : String) (filt : AmiFilterOptions) : List Err :=
  if ami = "" ∧ filt.NoOwner = true then [.sourceAmiFilterOwner] else []

/-- `instance_type`/`spot_instance_types` presence check. -/
def chkInstanceTypeRequired (it : String) (spot : List String) : List Err :=
  if it = "" ∧ spot.length = 0 then [.instanceTypeRequired] else []

/-- `instance_type`/`spot_instance_types` exclusivity check. -/
def chkInstanceTypeBoth (it : String) (spot : List String) : List Err :=
  if it ≠ "" ∧ spot.length > 0 then [.instanceTypeBoth] else []

/-- `block_duration_minutes % 60 != 0` (Go `%` is truncated division
remainder, `Int.tmod`). -/
def chkBlockDuration (bdm : Int) : List Err :=
  if bdm.tmod 60 ≠ 0 then [.bdmMultiple60] else []

/-- `spot_price == "auto"` requires `spot_price_auto_product`. -/
def chkSpotPriceAuto (price product : String) : List Err :=
  if price = "auto" ∧ product = "" then [.spotPriceAutoProduct] else []

/-- `spot_price_auto_product` requires `spot_price == "auto"`. -/
def chkSpotAutoProduct (price product : String) : List Err :=
  if product ≠ "" ∧ price ≠ "auto" then [.spotPriceShouldBeAuto] else []

/-- `spot_tags` without a spot request. -/
def chkSpotTags (tags : Option (List (String × String))) (price : String) : List Err :=
  if tags.isSome ∧ (price = "" ∨ price = "0") then [.spotTagsNoSpot] else []

/-- `user_data`/`user_data_file` checks; `statOk` models `os.Stat`
succeeding on a path. -/
def chkUserData (statOk : String → Bool) (ud udf : String) : List Err :=
  if ud ≠ "" ∧ udf ≠ "" then [.userDataOnlyOne]
  else if udf ≠ "" ∧ statOk udf = false then [.userDataFileNotFound udf]
  else []

/-- The `security_group_id` block: either reports the exclusivity error
or promotes the single id into the list; returns
(new `SecurityGroupId`, new `SecurityGroupIds`, errors). -/
def sgStep (id : String) (ids : List String) : String × List String × List Err :=
  if id ≠ "" then
    if ids.length > 0 then (id, ids, [.securityGroupOnlyOne])
    else ("", [id], [])
  else (id, ids, [])

/-- The `temporary_security_group_source_cidrs` block: defaults the empty
list, otherwise parses every entry (`pOk` models `net.ParseCIDR`
succeeding); returns (new list, errors, one per bad entry, in order). -/
def cidrStep (pOk : String → Bool) (cidrs : List String) : List String × List Err :=
  if cidrs.length = 0 then (["0.0.0.0/0"], [])
  else (cidrs, cidrs.filterMap fun s => if pOk s then none else some (.cidrParse s))

/-- The `shutdown_behavior` block: defaults `""` to `"stop"`, otherwise
accepts exactly the regexp `^(stop|terminate)$`. -/
def sbStep (sb : String) : String × List Err :=
  if sb = "" then ("stop", [])
  else if sb = "stop" ∨ sb = "terminate" then (sb, [])
  else (sb, [.shutdownBehaviorInvalid])

/-- The `enable_t2_unlimited` checks: forbids spot prices and requires a
`t2.`-family instance type (`strings.Index(s, ".")` and the slice up to
the first dot). -/
def chkT2 (enable : Bool) (spotPrice instanceType : String) : List Err :=
  if enable then
    (if spotPrice ≠ "" then [.t2Spot] else [])
      ++ (if instanceType.contains '.' then
            (if instanceType.takeWhile (· ≠ '.') ≠ "t2" then [.t2NonT2 instanceType] else [])
          else [.t2NoDot instanceType])
  else []

/-- `(*RunConfig).Prepare`. Parameters model the out-of-scope
collaborators: `statOk` is `os.Stat` success, `pOk` is `net.ParseCIDR`
success, `cp` is the communicator's own `Prepare` (which may rewrite the
communicator sub-configuration and return errors), `uuidStr` is
`uuid.TimeOrderedUUID()`. Returns the mutated configuration and the
error list, with errors appended in exactly the order of the Go code. -/
def RunConfig.Prepare (statOk pOk : String → Bool)
    (cp : CommunicatorConfig → CommunicatorConfig × List Err) (uuidStr : String) (c : RunConfig) :
    RunConfig × List Err :=
  let comm0 := if needsTempKeyPair c.Comm then
      { c.Comm with SSHTemporaryKeyPairName := "packer_" ++ uuidStr }
    else c.Comm
  let wpt := if c.WindowsPasswordTimeout = 0 then 20 * timeMinute
    else c.WindowsPasswordTimeout
  let runTags := some (c.RunTags.getD [])
  let comm1 := (cp comm0).1
  let sg := sgStep c.SecurityGroupId c.SecurityGroupIds
  let cidr := cidrStep pOk c.TemporarySGSourceCidrs
  let sb := sbStep c.InstanceInitiatedShutdownBehavior
  ({ c with
      Comm := comm1
      WindowsPasswordTimeout := wpt
      RunTags := runTags
      SecurityGroupId := sg.1
      SecurityGroupIds := sg.2.1
      TemporarySGSourceCidrs := cidr.1
      InstanceInitiatedShutdownBehavior := sb.1 },
    (cp comm0).2 ++ chkInterface comm1 ++ chkKeyPair comm1
      ++ chkSourceAmi c.SourceAmi c.SourceAmiFilter
      ++ chkSourceAmiOwner c.SourceAmi c.SourceAmiFilter
      ++ chkInstanceTypeRequired c.InstanceType c.SpotInstanceTypes
      ++ chkInstanceTypeBoth c.InstanceType c.SpotInstanceTypes
      ++ chkBlockDuration c.BlockDurationMinutes
      ++ chkSpotPriceAuto c.SpotPrice c.SpotPriceAutoProduct
      ++ chkSpotAutoProduct c.SpotPrice c.SpotPriceAutoProduct
      ++ chkSpotTags c.SpotTags c.SpotPrice
      ++ chkUserData statOk c.UserData c.UserDataFile
      ++ sg.2.2 ++ cidr.2 ++ sb.2
      ++ chkT2 c.EnableT2Unlimited c.SpotPrice c.InstanceType)

/-- `(*RunConfig).IsSpotInstance`. -/
def RunConfig.IsSpotInstance (c : RunConfig) : Bool :=
  c.SpotPrice ≠ "" && c.SpotPrice ≠ "0"

/-! ## Shutdown configuration (builder/vmware/common/shutdown_config.go) -/

/-- `ShutdownConfig`; `ShutdownTimeout` is a `time.Duration`
(nanoseconds, `Int`). -/
structure ShutdownConfig where
  ShutdownCommand : String := ""
  RawShutdownTimeout : String := ""
  ShutdownTimeout : Int := 0
deriving DecidableEq, Repr

/-- `(*ShutdownConfig).Prepare`. `parseDuration` models
`time.ParseDuration` (`none` = parse error, in which case the Go
multiple assignment stores the zero duration), `durErr` the text of the
parse error. -/
def ShutdownConfig.Prepare (parseDuration : String → Option Int)
    (durErr : String → String) (c : ShutdownConfig) :
    ShutdownConfig × List String :=
  let raw := if c.RawShutdownTimeout = "" then "5m" else c.RawShutdownTimeout
  match parseDuration raw with
  | some d => ({ c with RawShutdownTimeout := raw, ShutdownTimeout := d }, [])
  | none =>
      ({ c with RawShutdownTimeout := raw, ShutdownTimeout := 0 },
       ["Failed parsing shutdown_timeout: " ++ durErr raw])

/-! ## VirtualBox OVF builder (builder/virtualbox/ovf/config.go) -/

/-- The fields of the OVF builder's `Config` that the body of
`NewConfig` touches.  `PackerBuildName` comes from the embedded
`common.PackerConfig` and `ShutdownCommand` from the embedded
`vboxcommon.ShutdownConfig` (both outside `src/`, promoted by
squashing). -/
structure OvfConfig where
  PackerBuildName : String := ""
  Checksum : String := ""
  ChecksumType : String := ""
  GuestAdditionsMode : String := ""
  GuestAdditionsPath : String := ""
  GuestAdditionsInterface : String := ""
  GuestAdditionsSHA256 : String := ""
  GuestAdditionsURL : String := ""
  ImportFlags : List String := []
  ImportOpts : String := ""
  SourcePath : String := ""
  TargetPath : String := ""
  VMName : String := ""
  KeepRegistered : Bool := false
  SkipExport : Bool := false
  ShutdownCommand : String := ""
deriving DecidableEq, Repr

/-- Modelled from the spec: the three guest-additions modes of the
`vboxcommon` constants `GuestAdditionsModeDisable/Attach/Upload` (that
file is not under `src/`; the spec names `upload` as the baseline
delivery mode). -/
def ovfValidGuestAdditionsModes : List String := ["disable", "attach", "upload"]

/-- The message text of the stat-failure error built (and dropped) by
`NewConfig`; the `%v` tail renders the `os.Stat` error, abstracted as
`statErr`. -/
def ovfStatMsg (statErr : String → String) (sp : String) : String :=
  "Source file '" ++ sp ++ "' needs to exist at time of config validation! " ++ statErr sp

/-- `ovf.NewConfig`, from the `var errs *packer.MultiError` line on
(decoding is out of scope).  `subErrs` stands for the concatenated
results of the thirteen embedded sub-configurations' `Prepare` calls
(all in files outside `src/`), `statOk` models `os.Stat` success and
`statErr` the stat error text, `timeStr` is
`interpolate.InitTime.Unix()`.  Returns (resolved config if successful,
warnings, errors).

Note the faithful translation of the stat check: the Go code calls
`packer.MultiErrorAppend(errs, ...)` WITHOUT assigning the result back
to `errs`, so the freshly built error value is discarded; `_dropped`
below is that discarded value. -/
def ovfNewConfig (statOk : String → Bool) (statErr : String → String)
    (subErrs : List String) (timeStr : String) (c : OvfConfig) :
    Option OvfConfig × List String × List String :=
  let gam := if c.GuestAdditionsMode = "" then "upload" else c.GuestAdditionsMode
  let gap := if c.GuestAdditionsPath = "" then "VBoxGuestAdditions.iso" else c.GuestAdditionsPath
  let gai := if c.GuestAdditionsInterface = "" then "ide" else c.GuestAdditionsInterface
  let vmName := if c.VMName = "" then
      "packer-" ++ c.PackerBuildName ++ "-" ++ timeStr
    else c.VMName
  let ct := c.ChecksumType.toLower
  let cs := c.Checksum.toLower
  let errs1 := subErrs ++ (if c.SourcePath = "" then ["source_path is required"] else [])
  let _dropped := if statOk c.SourcePath = false then
      errs1 ++ [ovfStatMsg statErr c.SourcePath]
    else errs1
  let validMode := gam ∈ ovfValidGuestAdditionsModes
  let errs2 := errs1 ++ (if validMode then [] else
      ["guest_additions_mode is invalid. Must be one of: [disable attach upload]"])
  let gsha := c.GuestAdditionsSHA256.toLower
  let warnings := if c.ShutdownCommand = "" then
      ["A shutdown_command was not specified. Without a shutdown command, Packer\nwill forcibly halt the virtual machine, which may result in data loss."]
    else []
  if errs2 ≠ [] then (none, warnings, errs2)
  else
    let flags := if c.ImportOpts ≠ "" then c.ImportFlags ++ ["--options", c.ImportOpts]
      else c.ImportFlags
    (some { c with
        GuestAdditionsMode := gam
        GuestAdditionsPath := gap
        GuestAdditionsInterface := gai
        VMName := vmName
        ChecksumType := ct
        Checksum := cs
        GuestAdditionsSHA256 := gsha
        ImportFlags := flags },
     warnings, [])

/-! ## Concrete fixtures used by counterexamples and witnesses -/

/-- Concrete device whose virtual name lacks the `ephemeral` prefix. -/
def bdC3 : BlockDevice := { DeviceName := "/dev/sdb", VirtualName := "foo" }

/-- The mapping `buildBlockDevices` emits for `bdC3`: all three kind
fields unset. -/
def mC3 : BlockDeviceMapping :=
  { DeviceName := "/dev/sdb", NoDevice := none, VirtualName := none, Ebs := none }

/-- Concrete device used by the C6 witness. -/
def bdC6 : BlockDevice :=
  { DeviceName := "/dev/sda1", KmsKeyId := "key-1", Encrypted := some false }

/-- Concrete device violating both rules of `BlockDevice.Prepare`. -/
def bdC2 : BlockDevice :=
  { DeviceName := "", KmsKeyId := "key-1", Encrypted := some false }

/-- The identity communicator collaborator: rewrites nothing, reports
nothing. -/
def cpId : CommunicatorConfig → CommunicatorConfig × List Err := fun cm => (cm, [])

/-- Collaborator stub: every path exists / every CIDR parses. -/
def alwaysTrue (_ : String) : Bool := true

/-- Collaborator stub: no path exists. -/
def alwaysFalse (_ : String) : Bool := false

/-- A fully valid run configuration that is a fixed point of `Prepare`. -/
def rcW : RunConfig :=
  { SourceAmi := "ami-12345", InstanceType := "t2.micro", RunTags := some [],
    WindowsPasswordTimeout := 20 * timeMinute,
    TemporarySGSourceCidrs := ["10.0.0.0/8"],
    InstanceInitiatedShutdownBehavior := "stop",
    Comm := { SSHKeyPairName := "kp", SSHPrivateKeyFile := "pk" } }

/-- Like `rcW` but with BOTH `source_ami` and a non-empty
`source_ami_filter` set. -/
def rcBoth : RunConfig :=
  { rcW with SourceAmiFilter :=
      { Filters := [("name", "my-image-*")], Owners := ["137112412989"] } }

/-- Like `rcW` but with `block_duration_minutes = 90`. -/
def rc90 : RunConfig := { rcW with BlockDurationMinutes := 90 }

/-- Like `rcW` but violating two independent rules at once
(`block_duration_minutes = 90` and an invalid `shutdown_behavior`). -/
def rcAcc : RunConfig :=
  { rcW with
    BlockDurationMinutes := 90
    InstanceInitiatedShutdownBehavior := "oops" }

/-- Like `rcW` but with only `security_group_id` set. -/
def rcSg : RunConfig := { rcW with SecurityGroupId := "sg-12345" }

/-- A shutdown configuration that is a fixed point of its `Prepare`. -/
def scW : ShutdownConfig :=
  { ShutdownCommand := "shutdown -h", RawShutdownTimeout := "5m",
    ShutdownTimeout := 300000000000 }

/-- An OVF configuration whose `source_path` points to a missing file. -/
def ovfC4 : OvfConfig :=
  { SourcePath := "./missing.ovf", ShutdownCommand := "shutdown -h" }

/-! ## Helper lemmas: block devices -/

/-- Every branch of the mapping builder copies the device name. -/
theorem mkMapping_DeviceName (bd : BlockDevice) :
    (mkMapping bd).DeviceName = bd.DeviceName := by
  unfold mkMapping
  repeat' split
  all_goals rfl

/-- Kind analysis of one emitted mapping: at most one kind is ever set,
and none is set exactly on the non-`ephemeral` virtual-name branch. -/
theorem kindCount_mkMapping (bd : BlockDevice) :
    kindCount (mkMapping bd) ≤ 1
      ∧ (kindCount (mkMapping bd) = 0 ↔
          (bd.NoDevice = false ∧ bd.VirtualName ≠ ""
            ∧ "ephemeral".isPrefixOf bd.VirtualName = false)) := by
  by_cases hnd : bd.NoDevice
  · simp [mkMapping, kindCount, hnd]
  · by_cases hvn : bd.VirtualName = ""
    · simp [mkMapping, kindCount, hnd, hvn]
    · by_cases hp : "ephemeral".isPrefixOf bd.VirtualName
      · simp [mkMapping, kindCount, hnd, hvn, hp]
      · simp [mkMapping, kindCount, hnd, hvn, hp]

/-- A device with a non-empty key id and an explicit `false` encryption
flag never passes `BlockDevice.Prepare`. -/
theorem blockDevice_prepare_isSome (d : BlockDevice)
    (h1 : d.KmsKeyId ≠ "") (h2 : d.Encrypted = some false) :
    d.Prepare.isSome = true := by
  unfold BlockDevice.Prepare
  split
  · simp
  · rw [if_pos ⟨h1, h2⟩]; simp

/-- `filterMap` over an option-map has as many hits as devices whose
`Prepare` fails. -/
theorem length_filterMap_prepare (l : List BlockDevice) (g : BdErr → String) :
    (l.filterMap fun d => (d.Prepare).map g).length
      = (l.filter fun d => d.Prepare.isSome).length := by
  induction l with
  | nil => rfl
  | cons a l ih =>
      cases h : a.Prepare <;>
        simp [List.filterMap_cons, List.filter_cons, h, ih]

/-! ## Block-device claims -/

/-- Claim C9: `buildBlockDevices` returns exactly one mapping per input
specification, in the same input order, and the i-th output mapping's
`DeviceName` equals the i-th input specification's `DeviceName`. -/
theorem buildBlockDevices_shape (bds : List BlockDevice) :
    (buildBlockDevices bds).length = bds.length
      ∧ ∀ (i : Nat) (h : i < bds.length) (h2 : i < (buildBlockDevices bds).length),
        ((buildBlockDevices bds).get ⟨i, h2⟩).DeviceName
          = (bds.get ⟨i, h⟩).DeviceName := by
  constructor
  · simp [buildBlockDevices]
  · intro i h h2
    simp [buildBlockDevices, mkMapping_DeviceName]

/-- Witness for C9 at a concrete two-device list (second device is a
suppressed one). -/
theorem buildBlockDevices_shape_witness :
    ((buildBlockDevices
        [{ DeviceName := "/dev/sda1", VolumeSize := 8 },
         { DeviceName := "/dev/sdg", NoDevice := true }]).get
      ⟨1, by decide⟩).DeviceName = "/dev/sdg" := by
  have h := (buildBlockDevices_shape
    [{ DeviceName := "/dev/sda1", VolumeSize := 8 },
     { DeviceName := "/dev/sdg", NoDevice := true }]).2 1 (by decide) (by decide)
  exact h.trans rfl

/-- Counterexample to claim C3 as stated: for a device whose
`VirtualName` is non-empty but does not start with `ephemeral`, the
emitted mapping has NONE of the three kinds set (neither `NoDevice`,
nor `VirtualName`, nor `Ebs`), contradicting "never none". -/
theorem buildBlockDevices_none_kind_cex :
    bdC3.NoDevice = false ∧ bdC3.VirtualName ≠ ""
      ∧ buildBlockDevices [bdC3] = [mC3]
      ∧ kindCount mC3 = 0 := by
  decide

/-- Claim C3 (amended): every mapping emitted by `buildBlockDevices` has
AT MOST one of the three kinds set; it has exactly one unless the source
device's `VirtualName` is non-empty without the `ephemeral` prefix (with
`NoDevice` unset), in which case it has none. -/
theorem buildBlockDevices_kinds (bds : List BlockDevice) (m : BlockDeviceMapping)
    (hm : m ∈ buildBlockDevices bds) :
    kindCount m ≤ 1
      ∧ ∃ bd ∈ bds, m = mkMapping bd
          ∧ (kindCount m = 0 ↔
              (bd.NoDevice = false ∧ bd.VirtualName ≠ ""
                ∧ "ephemeral".isPrefixOf bd.VirtualName = false)) := by
  obtain ⟨bd, hbd, rfl⟩ := List.mem_map.mp hm
  exact ⟨(kindCount_mkMapping bd).1, bd, hbd, rfl, (kindCount_mkMapping bd).2⟩

/-- Witness for C3 (amended) at a concrete ephemeral device. -/
theorem buildBlockDevices_kinds_witness :
    kindCount (mkMapping { DeviceName := "/dev/sdc", VirtualName := "ephemeral0" }) ≤ 1 :=
  (buildBlockDevices_kinds
    [{ DeviceName := "/dev/sdc", VirtualName := "ephemeral0" }]
    (mkMapping { DeviceName := "/dev/sdc", VirtualName := "ephemeral0" })
    (by simp [buildBlockDevices])).1

/-- Claim C5: on the persistent branch (`NoDevice` unset, `VirtualName`
empty) the emitted `Ebs` block populates `VolumeSize` iff the size is
positive, `Iops` iff the volume type is `io1`, `SnapshotId` iff a
snapshot id was given, and propagates `Encrypted` and `KmsKeyId` as
given (the key id, Go-pointer style, only when non-empty). -/
theorem mkMapping_ebs_fields (bd : BlockDevice)
    (hnd : bd.NoDevice = false) (hvn : bd.VirtualName = "") :
    (mkMapping bd).Ebs = some
      { DeleteOnTermination := some bd.DeleteOnTermination
        VolumeType := if bd.VolumeType ≠ "" then some bd.VolumeType else none
        VolumeSize := if bd.VolumeSize > 0 then some bd.VolumeSize else none
        Iops := if bd.VolumeType = "io1" then some bd.IOPS else none
        SnapshotId := if bd.SnapshotId ≠ "" then some bd.SnapshotId else none
        Encrypted := bd.Encrypted
        KmsKeyId := if bd.KmsKeyId ≠ "" then some bd.KmsKeyId else none }
      ∧ ∀ e, (mkMapping bd).Ebs = some e →
          ((e.VolumeSize.isSome = true ↔ 0 < bd.VolumeSize)
            ∧ (e.Iops.isSome = true ↔ bd.VolumeType = "io1")
            ∧ (e.SnapshotId.isSome = true ↔ bd.SnapshotId ≠ "")
            ∧ e.Encrypted = bd.Encrypted
            ∧ e.KmsKeyId = (if bd.KmsKeyId ≠ "" then some bd.KmsKeyId else none)) := by
  have hebs : (mkMapping bd).Ebs = some
      { DeleteOnTermination := some bd.DeleteOnTermination
        VolumeType := if bd.VolumeType ≠ "" then some bd.VolumeType else none
        VolumeSize := if bd.VolumeSize > 0 then some bd.VolumeSize else none
        Iops := if bd.VolumeType = "io1" then some bd.IOPS else none
        SnapshotId := if bd.SnapshotId ≠ "" then some bd.SnapshotId else none
        Encrypted := bd.Encrypted
        KmsKeyId := if bd.KmsKeyId ≠ "" then some bd.KmsKeyId else none } := by
    simp [mkMapping, hnd, hvn]
  refine ⟨hebs, fun e he => ?_⟩
  rw [hebs] at he
  obtain rfl : _ = e := Option.some.injEq _ _ ▸ he
  refine ⟨?_, ?_, ?_, rfl, rfl⟩
  · by_cases h : bd.VolumeSize > 0 <;> simp [h]
  · by_cases h : bd.VolumeType = "io1" <;> simp [h]
  · by_cases h : bd.SnapshotId = "" <;> simp [h]

/-- Witness for C5 at a concrete io1-typed device with a snapshot. -/
theorem mkMapping_ebs_fields_witness :
    (mkMapping { DeviceName := "/dev/sda1", VolumeType := "io1", IOPS := 1000,
                 VolumeSize := 40, SnapshotId := "snap-1", KmsKeyId := "key-1",
                 Encrypted := some true }).Ebs
      = some { DeleteOnTermination := some false, VolumeType := some "io1",
               VolumeSize := some 40, Iops := some 1000,
               SnapshotId := some "snap-1", Encrypted := some true,
               KmsKeyId := some "key-1" } := by
  have h := (mkMapping_ebs_fields
    { DeviceName := "/dev/sda1", VolumeType := "io1", IOPS := 1000,
      VolumeSize := 40, SnapshotId := "snap-1", KmsKeyId := "key-1",
      Encrypted := some true } rfl rfl).1
  rw [h]
  decide

/-- Claim C6: a device with a non-empty `kms_key_id` and an explicit
`encrypted: false` makes `BlockDevices.Prepare` (the lift of
`BlockDevice.Prepare` over both mapping lists) return at least one
error. -/
theorem blockDevices_prepare_kms (b : BlockDevices) (d : BlockDevice)
    (hd : d ∈ b.AMIMappings ∨ d ∈ b.LaunchMappings)
    (h1 : d.KmsKeyId ≠ "") (h2 : d.Encrypted = some false) :
    BlockDevices.Prepare b ≠ [] := by
  have hs := blockDevice_prepare_isSome d h1 h2
  obtain ⟨e, he⟩ := Option.isSome_iff_exists.mp hs
  rcases hd with hd | hd
  · have : ("AMIMapping: " ++ e.render) ∈ BlockDevices.Prepare b := by
      unfold BlockDevices.Prepare
      refine List.mem_append.mpr (Or.inl ?_)
      exact List.mem_filterMap.mpr ⟨d, hd, by rw [he]; rfl⟩
    exact List.ne_nil_of_mem this
  · have : ("LaunchMapping: " ++ e.render) ∈ BlockDevices.Prepare b := by
      unfold BlockDevices.Prepare
      refine List.mem_append.mpr (Or.inr ?_)
      exact List.mem_filterMap.mpr ⟨d, hd, by rw [he]; rfl⟩
    exact List.ne_nil_of_mem this

/-- Witness for C6 at a one-device launch list. -/
theorem blockDevices_prepare_kms_witness :
    BlockDevices.Prepare
      { toLaunchBlockDevices := { LaunchMappings := [bdC6] } } ≠ [] :=
  blockDevices_prepare_kms
    { toLaunchBlockDevices := { LaunchMappings := [bdC6] } } bdC6
    (Or.inr (by simp [BlockDevices.LaunchMappings]))
    (by decide) (by decide)

/-- Counterexample to claim C2 as stated: `bdC2` violates both rules of
`BlockDevice.Prepare` (empty device name; key id with encryption
disabled), yet `Prepare` returns only the first error — it is a single
`error` return, not a list, and the kms violation is not reported. -/
theorem blockDevice_prepare_first_only_cex :
    bdC2.DeviceName = "" ∧ bdC2.KmsKeyId ≠ "" ∧ bdC2.Encrypted = some false
      ∧ BlockDevice.Prepare bdC2 = some .deviceNameRequired
      ∧ BlockDevice.Prepare bdC2 ≠ some (.kmsNeedsEncrypted bdC2.DeviceName) := by
  decide

/-! ## Helper lemmas: membership in the RunConfig check lists -/

theorem mem_chkInterface {t : Err} {comm : CommunicatorConfig} :
    t ∈ chkInterface comm ↔
      ((comm.SSHInterface ≠ "public_ip" ∧ comm.SSHInterface ≠ "private_ip"
          ∧ comm.SSHInterface ≠ "public_dns" ∧ comm.SSHInterface ≠ "private_dns"
          ∧ comm.SSHInterface ≠ "")
        ∧ t = .unknownInterface comm.SSHInterface) := by
  unfold chkInterface; split <;> simp_all

theorem mem_chkKeyPair {t : Err} {comm : CommunicatorConfig} :
    t ∈ chkKeyPair comm ↔
      (comm.SSHKeyPairName ≠ ""
        ∧ ((comm.«Type» = "winrm" ∧ comm.WinRMPassword = "" ∧ comm.SSHPrivateKeyFile = ""
              ∧ t = .winrmPrivateKey)
          ∨ (¬(comm.«Type» = "winrm" ∧ comm.WinRMPassword = "" ∧ comm.SSHPrivateKeyFile = "")
              ∧ comm.SSHPrivateKeyFile = "" ∧ comm.SSHAgentAuth = false
              ∧ t = .keypairPrivateKey))) := by
  unfold chkKeyPair
  split
  · split
    · simp_all
    · split <;> simp_all
  · simp_all

theorem mem_chkSourceAmi {t : Err} {ami : String} {filt : AmiFilterOptions} :
    t ∈ chkSourceAmi ami filt ↔
      (ami = "" ∧ filt.Empty = true ∧ t = .sourceAmiMustBeSpecified) := by
  unfold chkSourceAmi; split <;> simp_all

theorem mem_chkSourceAmiOwner {t : Err} {ami : String} {filt : AmiFilterOptions} :
    t ∈ chkSourceAmiOwner ami filt ↔
      (ami = "" ∧ filt.NoOwner = true ∧ t = .sourceAmiFilterOwner) := by
  unfold chkSourceAmiOwner; split <;> simp_all

theorem mem_chkInstanceTypeRequired {t : Err} {it : String} {spot : List String} :
    t ∈ chkInstanceTypeRequired it spot ↔
      (it = "" ∧ spot.length = 0 ∧ t = .instanceTypeRequired) := by
  unfold chkInstanceTypeRequired; split <;> simp_all

theorem mem_chkInstanceTypeBoth {t : Err} {it : String} {spot : List String} :
    t ∈ chkInstanceTypeBoth it spot ↔
      (it ≠ "" ∧ spot.length > 0 ∧ t = .instanceTypeBoth) := by
  unfold chkInstanceTypeBoth; split <;> simp_all

theorem mem_chkBlockDuration {t : Err} {bdm : Int} :
    t ∈ chkBlockDuration bdm ↔ (bdm.tmod 60 ≠ 0 ∧ t = .bdmMultiple60) := by
  unfold chkBlockDuration; split <;> simp_all

theorem mem_chkSpotPriceAuto {t : Err} {price product : String} :
    t ∈ chkSpotPriceAuto price product ↔
      (price = "auto" ∧ product = "" ∧ t = .spotPriceAutoProduct) := by
  unfold chkSpotPriceAuto; split <;> simp_all

theorem mem_chkSpotAutoProduct {t : Err} {price product : String} :
    t ∈ chkSpotAutoProduct price product ↔
      (product ≠ "" ∧ price ≠ "auto" ∧ t = .spotPriceShouldBeAuto) := by
  unfold chkSpotAutoProduct; split <;> simp_all

theorem mem_chkSpotTags {t : Err} {tags : Option (List (String × String))} {price : String} :
    t ∈ chkSpotTags tags price ↔
      (tags.isSome = true ∧ (price = "" ∨ price = "0") ∧ t = .spotTagsNoSpot) := by
  unfold chkSpotTags; split <;> simp_all

theorem mem_chkUserData {t : Err} {statOk : String → Bool} {ud udf : String} :
    t ∈ chkUserData statOk ud udf ↔
      ((ud ≠ "" ∧ udf ≠ "" ∧ t = .userDataOnlyOne)
        ∨ (¬(ud ≠ "" ∧ udf ≠ "") ∧ udf ≠ "" ∧ statOk udf = false
            ∧ t = .userDataFileNotFound udf)) := by
  unfold chkUserData
  split
  · simp_all
  · split <;> simp_all

theorem mem_sgStep_errs {t : Err} {id : String} {ids : List String} :
    t ∈ (sgStep id ids).2.2 ↔
      (id ≠ "" ∧ ids.length > 0 ∧ t = .securityGroupOnlyOne) := by
  unfold sgStep
  split
  · split <;> simp_all
  · simp_all

theorem mem_cidrStep_errs {t : Err} {pOk : String → Bool} {l : List String} :
    t ∈ (cidrStep pOk l).2 ↔
      (l.length ≠ 0 ∧ ∃ s ∈ l, pOk s = false ∧ t = .cidrParse s) := by
  unfold cidrStep
  split
  · simp_all
  · rename_i h
    simp only [List.mem_filterMap]
    constructor
    · rintro ⟨s, hs, hf⟩
      by_cases hp : pOk s
      · simp [hp] at hf
      · simp [hp] at hf
        exact ⟨h, s, hs, by simpa using hp, hf.symm⟩
    · rintro ⟨-, s, hs, hp, rfl⟩
      exact ⟨s, hs, by simp [hp]⟩

theorem mem_sbStep_errs {t : Err} {s : String} :
    t ∈ (sbStep s).2 ↔
      (s ≠ "" ∧ s ≠ "stop" ∧ s ≠ "terminate" ∧ t = .shutdownBehaviorInvalid) := by
  unfold sbStep
  split
  · simp_all
  · split
    · rename_i hne hv
      rcases hv with hv | hv <;> simp_all
    · simp_all

theorem mem_chkT2 {t : Err} {enable : Bool} {spotPrice instanceType : String} :
    t ∈ chkT2 enable spotPrice instanceType ↔
      (enable = true
        ∧ ((spotPrice ≠ "" ∧ t = .t2Spot)
          ∨ (instanceType.contains '.' = true
              ∧ instanceType.takeWhile (· ≠ '.') ≠ "t2" ∧ t = .t2NonT2 instanceType)
          ∨ (instanceType.contains '.' = false ∧ t = .t2NoDot instanceType))) := by
  unfold chkT2
  by_cases he : enable
  · by_cases hd : instanceType.contains '.'
    · by_cases hp : instanceType.takeWhile (· ≠ '.') = "t2" <;>
        by_cases hs : spotPrice = "" <;> simp_all
    · by_cases hs : spotPrice = "" <;> simp_all
  · simp_all

/-! ## Helper lemmas: counting and idempotence for RunConfig.Prepare -/

/-- The multiple-of-60 error appears in the output of `Prepare` exactly
once when the rule is violated and never otherwise (provided the
communicator collaborator does not emit that same error value). -/
theorem count_bdm_prepare (statOk pOk : String → Bool)
    (cp : CommunicatorConfig → CommunicatorConfig × List Err) (u : String) (c : RunConfig)
    (hcp : ∀ cm, Err.bdmMultiple60 ∉ (cp cm).2) :
    (RunConfig.Prepare statOk pOk cp u c).2.count Err.bdmMultiple60
      = if c.BlockDurationMinutes.tmod 60 = 0 then 0 else 1 := by
  have h0 : ∀ (L : List Err), Err.bdmMultiple60 ∉ L → L.count Err.bdmMultiple60 = 0 :=
    fun L h => List.count_eq_zero.mpr h
  have hC : ∀ cm, ((cp cm).2).count Err.bdmMultiple60 = 0 :=
    fun cm => h0 _ (hcp cm)
  have hI : ∀ comm, (chkInterface comm).count Err.bdmMultiple60 = 0 :=
    fun comm => h0 _ (by simp [mem_chkInterface])
  have hK : ∀ comm, (chkKeyPair comm).count Err.bdmMultiple60 = 0 :=
    fun comm => h0 _ (by simp [mem_chkKeyPair])
  have hS : ∀ a f, (chkSourceAmi a f).count Err.bdmMultiple60 = 0 :=
    fun a f => h0 _ (by simp [mem_chkSourceAmi])
  have hO : ∀ a f, (chkSourceAmiOwner a f).count Err.bdmMultiple60 = 0 :=
    fun a f => h0 _ (by simp [mem_chkSourceAmiOwner])
  have hIR : ∀ it sp, (chkInstanceTypeRequired it sp).count Err.bdmMultiple60 = 0 :=
    fun it sp => h0 _ (by simp [mem_chkInstanceTypeRequired])
  have hIB : ∀ it sp, (chkInstanceTypeBoth it sp).count Err.bdmMultiple60 = 0 :=
    fun it sp => h0 _ (by simp [mem_chkInstanceTypeBoth])
  have hPA : ∀ p q, (chkSpotPriceAuto p q).count Err.bdmMultiple60 = 0 :=
    fun p q => h0 _ (by simp [mem_chkSpotPriceAuto])
  have hAP : ∀ p q, (chkSpotAutoProduct p q).count Err.bdmMultiple60 = 0 :=
    fun p q => h0 _ (by simp [mem_chkSpotAutoProduct])
  have hST : ∀ tg p, (chkSpotTags tg p).count Err.bdmMultiple60 = 0 :=
    fun tg p => h0 _ (by simp [mem_chkSpotTags])
  have hUD : ∀ ud udf, (chkUserData statOk ud udf).count Err.bdmMultiple60 = 0 :=
    fun ud udf => h0 _ (by simp [mem_chkUserData])
  have hSG : ∀ id ids, ((sgStep id ids).2.2).count Err.bdmMultiple60 = 0 :=
    fun id ids => h0 _ (by simp [mem_sgStep_errs])
  have hCI : ∀ l, ((cidrStep pOk l).2).count Err.bdmMultiple60 = 0 :=
    fun l => h0 _ (by simp [mem_cidrStep_errs])
  have hSB : ∀ s, ((sbStep s).2).count Err.bdmMultiple60 = 0 :=
    fun s => h0 _ (by simp [mem_sbStep_errs])
  have hT2 : ∀ e p it, (chkT2 e p it).count Err.bdmMultiple60 = 0 :=
    fun e p it => h0 _ (by simp [mem_chkT2])
  have hB : ∀ b : Int, (chkBlockDuration b).count Err.bdmMultiple60
      = if b.tmod 60 = 0 then 0 else 1 := by
    intro b
    by_cases hb : b.tmod 60 = 0 <;> simp [chkBlockDuration, hb]
  simp [RunConfig.Prepare, List.count_append, hC, hI, hK, hS, hO, hIR, hIB,
    hPA, hAP, hST, hUD, hSG, hCI, hSB, hT2, hB]

/-- A second pass of the security-group step over its own output changes
nothing and reports nothing. -/
theorem sgStep_idem (id : String) (ids : List String) (id2 : String) (ids2 : List String)
    (h : sgStep id ids = (id2, ids2, [])) : sgStep id2 ids2 = (id2, ids2, []) := by
  unfold sgStep at h ⊢
  by_cases h1 : id = ""
  · simp [h1] at h
    obtain ⟨rfl, rfl⟩ := h
    simp [h1]
  · by_cases h2 : ids.length > 0
    · simp [h1, h2] at h
    · simp [h1, h2] at h
      obtain ⟨rfl, rfl⟩ := h
      simp

/-- A second pass of the CIDR step over its own output changes nothing
and reports nothing, given that the default CIDR parses. -/
theorem cidrStep_idem (pOk : String → Bool) (l l2 : List String)
    (hdef : pOk "0.0.0.0/0" = true)
    (h : cidrStep pOk l = (l2, [])) : cidrStep pOk l2 = (l2, []) := by
  unfold cidrStep at h ⊢
  by_cases h1 : l.length = 0
  · simp [h1] at h
    obtain rfl := h
    simp [hdef]
  · simp [h1] at h
    obtain ⟨rfl, hf⟩ := h
    simp [h1]
    exact hf

/-- A second pass of the shutdown-behavior step over its own output
changes nothing and reports nothing. -/
theorem sbStep_idem (s s2 : String) (h : sbStep s = (s2, [])) :
    sbStep s2 = (s2, []) := by
  unfold sbStep at h ⊢
  by_cases h1 : s = ""
  · simp [h1] at h
    obtain rfl := h.symm
    simp
  · by_cases h2 : s = "stop" ∨ s = "terminate"
    · simp [h1, h2] at h
      obtain rfl := h.symm
      rcases h2 with h2 | h2 <;> simp [h2]
    · simp [h1, h2] at h

/-- Idempotence of `RunConfig.Prepare`: if a first run succeeded with no
errors, a second run over the resolved configuration changes no field
and reports no error.  The two extra hypotheses constrain only the
out-of-scope communicator collaborator: its own `Prepare` is idempotent
on the resolved communicator, and the resolved communicator does not
have all four key-material fields empty. -/
theorem runPrepare_idem (statOk pOk : String → Bool)
    (cp : CommunicatorConfig → CommunicatorConfig × List Err) (u u2 : String)
    (c c' : RunConfig)
    (h : RunConfig.Prepare statOk pOk cp u c = (c', []))
    (hcp : cp c'.Comm = (c'.Comm, []))
    (htk : ¬ needsTempKeyPair c'.Comm)
    (hdef : pOk "0.0.0.0/0" = true) :
    RunConfig.Prepare statOk pOk cp u2 c' = (c', []) := by
  simp only [RunConfig.Prepare] at h
  rw [Prod.mk.injEq] at h
  obtain ⟨hA, hE⟩ := h
  subst hA
  simp only [List.append_eq_nil, and_assoc] at hE
  obtain ⟨hcE, hIf, hKp, hSa, hOw, hIr, hIb, hBd, hPa, hAp, hSt, hUd, hSg, hCi, hSb, hT2⟩ := hE
  have hwpt : (if c.WindowsPasswordTimeout = 0 then 20 * timeMinute
      else c.WindowsPasswordTimeout) ≠ 0 := by
    by_cases h0 : c.WindowsPasswordTimeout = 0 <;> simp [h0, timeMinute]
  have hsg2 := sgStep_idem c.SecurityGroupId c.SecurityGroupIds
    (sgStep c.SecurityGroupId c.SecurityGroupIds).1
    (sgStep c.SecurityGroupId c.SecurityGroupIds).2.1
    (by rw [← hSg])
  have hci2 := cidrStep_idem pOk c.TemporarySGSourceCidrs
    (cidrStep pOk c.TemporarySGSourceCidrs).1 hdef (by rw [← hCi])
  have hsb2 := sbStep_idem c.InstanceInitiatedShutdownBehavior
    (sbStep c.InstanceInitiatedShutdownBehavior).1 (by rw [← hSb])
  simp only at hcp htk
  simp only [RunConfig.Prepare]
  simp only [RunConfig.mk.injEq, Prod.mk.injEq]
  simp [hsg2, hci2, hsb2, if_neg hwpt, if_neg htk, hcp, hcE, hIf, hKp, hSa,
    hOw, hIr, hIb, hBd, hPa, hAp, hSt, hUd, hSg, hCi, hSb, hT2]

/-- Idempotence of the vmware `ShutdownConfig.Prepare`: an error-free
run is a fixed point of a second run. -/
theorem shutdownPrepare_idem (pd : String → Option Int) (de : String → String)
    (c c' : ShutdownConfig)
    (h : ShutdownConfig.Prepare pd de c = (c', [])) :
    ShutdownConfig.Prepare pd de c' = (c', []) := by
  unfold ShutdownConfig.Prepare at h ⊢
  simp only [] at h ⊢
  have hne : (if c.RawShutdownTimeout = "" then "5m" else c.RawShutdownTimeout) ≠ "" := by
    by_cases hr : c.RawShutdownTimeout = "" <;> simp [hr]
  cases hp : pd (if c.RawShutdownTimeout = "" then "5m" else c.RawShutdownTimeout) with
  | none =>
      rw [hp] at h
      simp at h
  | some d =>
      rw [hp] at h
      rw [Prod.mk.injEq] at h
      obtain ⟨hA, -⟩ := h
      subst hA
      simp only
      rw [if_neg hne, hp]

/-! ## RunConfig claims -/

/-- Counterexample to claim C1 as stated: for a configuration with BOTH
`source_ami` and a non-empty `source_ami_filter` set (and everything
else valid), `RunConfig.Prepare` returns an EMPTY error list — in
particular no "mutually exclusive" error naming the two fields exists
in this version of the code. -/
theorem sourceAmi_both_set_no_error_cex :
    rcBoth.SourceAmi ≠ "" ∧ rcBoth.SourceAmiFilter.Empty = false
      ∧ (RunConfig.Prepare alwaysTrue alwaysTrue cpId "u" rcBoth).2 = [] := by
  decide

/-- Claim C1 (amended): the "must be specified" error is emitted exactly
when both `source_ami` and `source_ami_filter` are empty; whenever
`source_ami` is non-empty (whether or not the filter is also set)
neither the "must be specified" error nor the filter-owner error is
emitted — the code has no mutual-exclusion rule for this pair. -/
theorem sourceAmi_checks (statOk pOk : String → Bool)
    (cp : CommunicatorConfig → CommunicatorConfig × List Err) (u : String) (c : RunConfig)
    (hcp1 : ∀ cm, Err.sourceAmiMustBeSpecified ∉ (cp cm).2)
    (hcp2 : ∀ cm, Err.sourceAmiFilterOwner ∉ (cp cm).2) :
    (Err.sourceAmiMustBeSpecified ∈ (RunConfig.Prepare statOk pOk cp u c).2
        ↔ (c.SourceAmi = "" ∧ c.SourceAmiFilter.Empty = true))
      ∧ (c.SourceAmi ≠ "" →
          Err.sourceAmiMustBeSpecified ∉ (RunConfig.Prepare statOk pOk cp u c).2
            ∧ Err.sourceAmiFilterOwner ∉ (RunConfig.Prepare statOk pOk cp u c).2) := by
  constructor
  · simp [RunConfig.Prepare, List.mem_append, mem_chkInterface, mem_chkKeyPair,
      mem_chkSourceAmi, mem_chkSourceAmiOwner, mem_chkInstanceTypeRequired,
      mem_chkInstanceTypeBoth, mem_chkBlockDuration, mem_chkSpotPriceAuto,
      mem_chkSpotAutoProduct, mem_chkSpotTags, mem_chkUserData, mem_sgStep_errs,
      mem_cidrStep_errs, mem_sbStep_errs, mem_chkT2, hcp1]
  · intro hne
    constructor
    · simp [RunConfig.Prepare, List.mem_append, mem_chkInterface, mem_chkKeyPair,
        mem_chkSourceAmi, mem_chkSourceAmiOwner, mem_chkInstanceTypeRequired,
        mem_chkInstanceTypeBoth, mem_chkBlockDuration, mem_chkSpotPriceAuto,
        mem_chkSpotAutoProduct, mem_chkSpotTags, mem_chkUserData, mem_sgStep_errs,
        mem_cidrStep_errs, mem_sbStep_errs, mem_chkT2, hcp1, hne]
    · simp [RunConfig.Prepare, List.mem_append, mem_chkInterface, mem_chkKeyPair,
        mem_chkSourceAmi, mem_chkSourceAmiOwner, mem_chkInstanceTypeRequired,
        mem_chkInstanceTypeBoth, mem_chkBlockDuration, mem_chkSpotPriceAuto,
        mem_chkSpotAutoProduct, mem_chkSpotTags, mem_chkUserData, mem_sgStep_errs,
        mem_cidrStep_errs, mem_sbStep_errs, mem_chkT2, hcp2, hne]

/-- Witness for C1 (amended) at a concrete both-set configuration. -/
theorem sourceAmi_checks_witness :
    Err.sourceAmiMustBeSpecified ∉ (RunConfig.Prepare alwaysTrue alwaysTrue cpId "u" rcBoth).2
      ∧ Err.sourceAmiFilterOwner ∉ (RunConfig.Prepare alwaysTrue alwaysTrue cpId "u" rcBoth).2 :=
  (sourceAmi_checks alwaysTrue alwaysTrue cpId "u" rcBoth
    (fun cm => by simp [cpId]) (fun cm => by simp [cpId])).2 (by decide)

/-- Claim C2 (amended): the list-returning validators do accumulate one
error per violation without stopping — `RunConfig.Prepare` reports both
errors of a configuration violating two independent rules, and
`BlockDevices.Prepare` reports one error per failing device across both
lists — but `BlockDevice.Prepare` itself returns a single error and
stops at its first violated rule (an empty device name masks the
kms/encryption violation). -/
theorem prepare_error_accumulation :
    (∀ (statOk pOk : String → Bool)
        (cp : CommunicatorConfig → CommunicatorConfig × List Err) (u : String)
        (c : RunConfig),
        c.BlockDurationMinutes.tmod 60 ≠ 0 →
        c.InstanceInitiatedShutdownBehavior ≠ "" →
        c.InstanceInitiatedShutdownBehavior ≠ "stop" →
        c.InstanceInitiatedShutdownBehavior ≠ "terminate" →
        Err.bdmMultiple60 ∈ (RunConfig.Prepare statOk pOk cp u c).2
          ∧ Err.shutdownBehaviorInvalid ∈ (RunConfig.Prepare statOk pOk cp u c).2)
      ∧ (∀ b : BlockDevices,
          (BlockDevices.Prepare b).length
            = (b.AMIMappings.filter fun d => d.Prepare.isSome).length
              + (b.LaunchMappings.filter fun d => d.Prepare.isSome).length)
      ∧ (∀ b : BlockDevice, b.DeviceName = "" → b.Prepare = some .deviceNameRequired) := by
  refine ⟨fun statOk pOk cp u c h1 h2 h3 h4 => ?_, fun b => ?_, fun b h => ?_⟩
  · constructor <;>
      · simp [RunConfig.Prepare, List.mem_append, mem_chkInterface, mem_chkKeyPair,
          mem_chkSourceAmi, mem_chkSourceAmiOwner, mem_chkInstanceTypeRequired,
          mem_chkInstanceTypeBoth, mem_chkBlockDuration, mem_chkSpotPriceAuto,
          mem_chkSpotAutoProduct, mem_chkSpotTags, mem_chkUserData, mem_sgStep_errs,
          mem_cidrStep_errs, mem_sbStep_errs, mem_chkT2, h1, h2, h3, h4]
  · unfold BlockDevices.Prepare
    rw [List.length_append, length_filterMap_prepare, length_filterMap_prepare]
  · simp [BlockDevice.Prepare, h]

/-- Witness for C2 (amended): a configuration violating both the
duration rule and the shutdown-behavior rule gets both errors. -/
theorem prepare_error_accumulation_witness :
    Err.bdmMultiple60 ∈ (RunConfig.Prepare alwaysTrue alwaysTrue cpId "u" rcAcc).2
      ∧ Err.shutdownBehaviorInvalid ∈ (RunConfig.Prepare alwaysTrue alwaysTrue cpId "u" rcAcc).2 :=
  prepare_error_accumulation.1 alwaysTrue alwaysTrue cpId "u" rcAcc
    (by decide) (by decide) (by decide) (by decide)

/-- Claim C7: with `block_duration_minutes = 90` the error list contains
the "must be multiple of 60" error exactly once; with `120`, zero times
(the communicator collaborator is assumed not to emit that same error
value). -/
theorem block_duration_errors (statOk pOk : String → Bool)
    (cp : CommunicatorConfig → CommunicatorConfig × List Err) (u : String) (c : RunConfig)
    (hcp : ∀ cm, Err.bdmMultiple60 ∉ (cp cm).2) :
    (c.BlockDurationMinutes = 90 →
        (RunConfig.Prepare statOk pOk cp u c).2.count Err.bdmMultiple60 = 1)
      ∧ (c.BlockDurationMinutes = 120 →
        (RunConfig.Prepare statOk pOk cp u c).2.count Err.bdmMultiple60 = 0)
      ∧ Err.bdmMultiple60.render = "block_duration_minutes must be multiple of 60" := by
  refine ⟨fun h90 => ?_, fun h120 => ?_, rfl⟩
  · rw [count_bdm_prepare statOk pOk cp u c hcp, h90]
    decide
  · rw [count_bdm_prepare statOk pOk cp u c hcp, h120]
    decide

/-- Witness for C7 at a concrete `block_duration_minutes = 90`
configuration. -/
theorem block_duration_errors_witness :
    (RunConfig.Prepare alwaysTrue alwaysTrue cpId "u" rc90).2.count Err.bdmMultiple60 = 1 :=
  (block_duration_errors alwaysTrue alwaysTrue cpId "u" rc90
    (fun cm => by simp [cpId])).1 (by decide)

/-- Claim C10: a lone `security_group_id` is promoted into the
one-element `security_group_ids` list, the scalar field is cleared, and
no error is emitted; the exclusivity error appears exactly when both
fields were set. -/
theorem securityGroup_promotion (statOk pOk : String → Bool)
    (cp : CommunicatorConfig → CommunicatorConfig × List Err) (u : String) (c : RunConfig)
    (hcp : ∀ cm, Err.securityGroupOnlyOne ∉ (cp cm).2) :
    (c.SecurityGroupId ≠ "" → c.SecurityGroupIds = [] →
        ((RunConfig.Prepare statOk pOk cp u c).1.SecurityGroupIds = [c.SecurityGroupId]
          ∧ (RunConfig.Prepare statOk pOk cp u c).1.SecurityGroupId = ""
          ∧ Err.securityGroupOnlyOne ∉ (RunConfig.Prepare statOk pOk cp u c).2))
      ∧ (Err.securityGroupOnlyOne ∈ (RunConfig.Prepare statOk pOk cp u c).2
          ↔ (c.SecurityGroupId ≠ "" ∧ c.SecurityGroupIds ≠ [])) := by
  constructor
  · intro h1 h2
    refine ⟨?_, ?_, ?_⟩
    · simp [RunConfig.Prepare, sgStep, h1, h2]
    · simp [RunConfig.Prepare, sgStep, h1, h2]
    · simp [RunConfig.Prepare, List.mem_append, mem_chkInterface, mem_chkKeyPair,
        mem_chkSourceAmi, mem_chkSourceAmiOwner, mem_chkInstanceTypeRequired,
        mem_chkInstanceTypeBoth, mem_chkBlockDuration, mem_chkSpotPriceAuto,
        mem_chkSpotAutoProduct, mem_chkSpotTags, mem_chkUserData, mem_sgStep_errs,
        mem_cidrStep_errs, mem_sbStep_errs, mem_chkT2, hcp, h2]
  · simp [RunConfig.Prepare, List.mem_append, mem_chkInterface, mem_chkKeyPair,
      mem_chkSourceAmi, mem_chkSourceAmiOwner, mem_chkInstanceTypeRequired,
      mem_chkInstanceTypeBoth, mem_chkBlockDuration, mem_chkSpotPriceAuto,
      mem_chkSpotAutoProduct, mem_chkSpotTags, mem_chkUserData, mem_sgStep_errs,
      mem_cidrStep_errs, mem_sbStep_errs, mem_chkT2, hcp, List.length_pos]

/-- Witness for C10 at a configuration with only `security_group_id`. -/
theorem securityGroup_promotion_witness :
    (RunConfig.Prepare alwaysTrue alwaysTrue cpId "u" rcSg).1.SecurityGroupIds = ["sg-12345"]
      ∧ (RunConfig.Prepare alwaysTrue alwaysTrue cpId "u" rcSg).1.SecurityGroupId = ""
      ∧ Err.securityGroupOnlyOne ∉ (RunConfig.Prepare alwaysTrue alwaysTrue cpId "u" rcSg).2 :=
  (securityGroup_promotion alwaysTrue alwaysTrue cpId "u" rcSg
    (fun cm => by simp [cpId])).1 (by decide) (by decide)

/-- Claim C8: resolution is idempotent.  First conjunct:
`RunConfig.Prepare`, when a run succeeds with an empty error set, runs
again on the resolved configuration with every field unchanged and an
empty error set (the hypotheses about `cp` only constrain the
out-of-scope communicator collaborator, and `pOk` must accept the
default CIDR the first run may have installed).  Second conjunct: the
same for the vmware `ShutdownConfig.Prepare`. -/
theorem prepare_idempotent :
    (∀ (statOk pOk : String → Bool)
        (cp : CommunicatorConfig → CommunicatorConfig × List Err)
        (u u2 : String) (c c' : RunConfig),
        RunConfig.Prepare statOk pOk cp u c = (c', []) →
        cp c'.Comm = (c'.Comm, []) →
        ¬ needsTempKeyPair c'.Comm →
        pOk "0.0.0.0/0" = true →
        RunConfig.Prepare statOk pOk cp u2 c' = (c', []))
      ∧ (∀ (pd : String → Option Int) (de : String → String)
          (c c' : ShutdownConfig),
          ShutdownConfig.Prepare pd de c = (c', []) →
          ShutdownConfig.Prepare pd de c' = (c', [])) :=
  ⟨fun statOk pOk cp u u2 c c' h hcp htk hdef =>
      runPrepare_idem statOk pOk cp u u2 c c' h hcp htk hdef,
    fun pd de c c' h => shutdownPrepare_idem pd de c c' h⟩

/-- Witness for C8 at concrete fixed-point configurations. -/
theorem prepare_idempotent_witness :
    RunConfig.Prepare alwaysTrue alwaysTrue cpId "u2" rcW = (rcW, [])
      ∧ ShutdownConfig.Prepare (fun _ => some 300000000000) (fun _ => "parse error") scW
          = (scW, []) :=
  ⟨prepare_idempotent.1 alwaysTrue alwaysTrue cpId "u1" "u2" rcW rcW
      (by decide) rfl (by decide) rfl,
    prepare_idempotent.2 (fun _ => some 300000000000) (fun _ => "parse error") scW scW
      (by decide)⟩

/-! ## VirtualBox OVF claim -/

/-- Claim C4 (evaluation of the code defect): with a `source_path` that
does not exist (`alwaysFalse` stat), a non-empty path and all embedded
sub-configurations clean, `NewConfig` nevertheless SUCCEEDS with an
empty error list: the stat-failure error it builds is discarded because
the result of `packer.MultiErrorAppend` is never assigned back to
`errs`. -/
theorem ovf_missing_source_not_reported :
    alwaysFalse ovfC4.SourcePath = false ∧ ovfC4.SourcePath ≠ ""
      ∧ (ovfNewConfig alwaysFalse (fun _ => "no such file or directory") [] "1500000000"
          ovfC4).2.2 = []
      ∧ (ovfNewConfig alwaysFalse (fun _ => "no such file or directory") [] "1500000000"
          ovfC4).1.isSome = true := by
  decide
